import Mathlib

/-!
# VocaFuse Node SDK — verification of the specification against the source

Shallow embedding of the SDK's core components:
* the webhook `RequestValidator` (HMAC-SHA256 over a canonical signing string,
  from `src/webhooks` / `RequestValidator`),
* the retry interceptor (`Client.setupRetryInterceptor`),
* the error classifier (`src/errors/error-handler.ts`, `src/errors/vocafuse-error.ts`),
* the voicenotes resource (`list` parameter handling and the `iterate`
  auto-pagination generator, `src/resources/voicenotes.ts`).

Machine words are `Nat` with explicit reduction modulo `2^32`; JS strings are
`String`/`List Char`; JS `undefined` is `Option`; JS truthiness on strings
(`""` is falsy) is modelled explicitly.
-/

namespace VocaFuse

/-! ## Bytes and 32-bit words -/

/-- Reduce modulo `2^32` (JS `>>> 0`-style word arithmetic used by SHA-256). -/
def w32 (n : Nat) : Nat := n % 4294967296

/-- Right rotation of a 32-bit word. -/
def rotr (x n : Nat) : Nat := w32 ((x >>> n) ||| (x <<< (32 - n)))

/-- UTF-8 encoding of a single code point (Node `Buffer.from(str, 'utf8')`). -/
def utf8EncodeChar (n : Nat) : List Nat :=
  if n < 128 then [n]
  else if n < 2048 then [192 + n / 64, 128 + n % 64]
  else if n < 65536 then [224 + n / 4096, 128 + (n / 64) % 64, 128 + n % 64]
  else [240 + n / 262144, 128 + (n / 4096) % 64, 128 + (n / 64) % 64, 128 + n % 64]

/-- UTF-8 bytes of a string, as the `crypto` module sees string inputs. -/
def strBytes (s : String) : List Nat :=
  (s.data.map (fun c => utf8EncodeChar c.toNat)).flatten

/-! ## SHA-256 (model of Node `crypto`'s sha256) -/

/-- SHA-256 round constants. -/
def sha256K : List Nat :=
  [1116352408, 1899447441, 3049323471, 3921009573, 961987163,
   1508970993, 2453635748, 2870763221, 3624381080, 310598401,
   607225278, 1426881987, 1925078388, 2162078206, 2614888103,
   3248222580, 3835390401, 4022224774, 264347078, 604807628,
   770255983, 1249150122, 1555081692, 1996064986, 2554220882,
   2821834349, 2952996808, 3210313671, 3336571891, 3584528711,
   113926993, 338241895, 666307205, 773529912, 1294757372,
   1396182291, 1695183700, 1986661051, 2177026350, 2456956037,
   2730485921, 2820302411, 3259730800, 3345764771, 3516065817,
   3600352804, 4094571909, 275423344, 430227734, 506948616,
   659060556, 883997877, 958139571, 1322822218, 1537002063,
   1747873779, 1955562222, 2024104815, 2227730452, 2361852424,
   2428436474, 2756734187, 3204031479, 3329325298]

/-- SHA-256 working state: eight 32-bit words. -/
structure Digest8 where
  a : Nat
  b : Nat
  c : Nat
  d : Nat
  e : Nat
  f : Nat
  g : Nat
  h : Nat
deriving DecidableEq, Repr

/-- Initial SHA-256 hash value. -/
def sha256Init : Digest8 :=
  ⟨1779033703, 3144134277, 1013904242, 2773480762,
   1359893119, 2600822924, 528734635, 1541459225⟩

def smallSigma0 (x : Nat) : Nat := (rotr x 7) ^^^ (rotr x 18) ^^^ (x >>> 3)

def smallSigma1 (x : Nat) : Nat := (rotr x 17) ^^^ (rotr x 19) ^^^ (x >>> 10)

def bigSigma0 (x : Nat) : Nat := (rotr x 2) ^^^ (rotr x 13) ^^^ (rotr x 22)

def bigSigma1 (x : Nat) : Nat := (rotr x 6) ^^^ (rotr x 11) ^^^ (rotr x 25)

/-- `Ch(x,y,z)` with the complement taken inside 32 bits. -/
def chV (x y z : Nat) : Nat := (x &&& y) ^^^ ((4294967295 - w32 x) &&& z)

def majV (x y z : Nat) : Nat := (x &&& y) ^^^ (x &&& z) ^^^ (y &&& z)

/-- Big-endian 4-byte groups to 32-bit words. -/
def bytesToWords : List Nat → List Nat
  | b0 :: b1 :: b2 :: b3 :: rest => (((b0 * 256 + b1) * 256 + b2) * 256 + b3) :: bytesToWords rest
  | _ => []

/-- Message-schedule extension: append `k` further words to `w`. -/
def schedule (w : List Nat) : Nat → List Nat
  | 0 => w
  | k + 1 =>
    let n := w.length
    let nw := w32 (smallSigma1 (w.getD (n - 2) 0) + w.getD (n - 7) 0 +
                   smallSigma0 (w.getD (n - 15) 0) + w.getD (n - 16) 0)
    schedule (w ++ [nw]) k

/-- One SHA-256 round. -/
def round1 (st : Digest8) (kw : Nat × Nat) : Digest8 :=
  let t1 := w32 (st.h + bigSigma1 st.e + chV st.e st.f st.g + kw.1 + kw.2)
  let t2 := w32 (bigSigma0 st.a + majV st.a st.b st.c)
  ⟨w32 (t1 + t2), st.a, st.b, st.c, w32 (st.d + t1), st.e, st.f, st.g⟩

/-- Compress one 64-byte block into the running hash. -/
def compress (H : Digest8) (block : List Nat) : Digest8 :=
  let w := schedule (bytesToWords block) 48
  let s := (sha256K.zip w).foldl round1 H
  ⟨w32 (H.a + s.a), w32 (H.b + s.b), w32 (H.c + s.c), w32 (H.d + s.d),
   w32 (H.e + s.e), w32 (H.f + s.f), w32 (H.g + s.g), w32 (H.h + s.h)⟩

/-- Split into 64-byte chunks (`fuel` bounds the recursion). -/
def chunks64 : Nat → List Nat → List (List Nat)
  | 0, _ => []
  | _, [] => []
  | fuel + 1, l => l.take 64 :: chunks64 fuel (l.drop 64)

/-- SHA-256 padding: `0x80`, zeros, then the 64-bit big-endian bit length. -/
def sha256Pad (msg : List Nat) : List Nat :=
  let len := msg.length
  let zeros := (119 - len % 64) % 64
  let bitLen := len * 8
  msg ++ 128 :: List.replicate zeros 0 ++
    [w32 (bitLen >>> 56) % 256, (bitLen >>> 48) % 256, (bitLen >>> 40) % 256,
     (bitLen >>> 32) % 256, (bitLen >>> 24) % 256, (bitLen >>> 16) % 256,
     (bitLen >>> 8) % 256, bitLen % 256]

/-- Big-endian bytes of one 32-bit word. -/
def wordBytes (w : Nat) : List Nat :=
  [(w >>> 24) &&& 255, (w >>> 16) &&& 255, (w >>> 8) &&& 255, w &&& 255]

/-- Serialize the final state to the 32-byte digest. -/
def digestBytes (H : Digest8) : List Nat :=
  wordBytes H.a ++ wordBytes H.b ++ wordBytes H.c ++ wordBytes H.d ++
  wordBytes H.e ++ wordBytes H.f ++ wordBytes H.g ++ wordBytes H.h

/-- SHA-256 of a byte list. -/
def sha256 (msg : List Nat) : List Nat :=
  let padded := sha256Pad msg
  digestBytes ((chunks64 (padded.length / 64) padded).foldl compress sha256Init)

/-! ## HMAC-SHA256 (model of `createHmac('sha256', key)`) -/

/-- Keys longer than the 64-byte block are first hashed. -/
def blockedKey (key : List Nat) : List Nat :=
  if 64 < key.length then sha256 key else key

/-- Zero-pad the (possibly hashed) key to the 64-byte block size. -/
def padKey (key : List Nat) : List Nat :=
  let k := blockedKey key
  k ++ List.replicate (64 - k.length) 0

/-- HMAC-SHA256 digest (32 bytes). -/
def hmacSha256 (key msg : List Nat) : List Nat :=
  let k := padKey key
  let ipadK := k.map (fun b => b ^^^ 0x36)
  let opadK := k.map (fun b => b ^^^ 0x5c)
  sha256 (opadK ++ sha256 (ipadK ++ msg))

/-! ## Hex encoding / decoding

`hexEncodeBytes` models `.digest('hex')` (lowercase); `hexDecode` models Node's
`Buffer.from(str, 'hex')`, which decodes full valid byte pairs from the start
and stops at the first invalid or incomplete pair. -/

/-- Lowercase hex digit for a nibble. -/
def hexDigit (n : Nat) : Char := Char.ofNat (if n < 10 then 48 + n else 87 + n)

/-- Lowercase hex rendering of a byte list. -/
def hexEncodeBytes (bs : List Nat) : List Char :=
  (bs.map (fun b => [hexDigit (b / 16), hexDigit (b % 16)])).flatten

/-- Value of a hex digit character (either case), `none` for non-hex. -/
def hexVal (c : Char) : Option Nat :=
  if 48 ≤ c.toNat ∧ c.toNat ≤ 57 then some (c.toNat - 48)
  else if 97 ≤ c.toNat ∧ c.toNat ≤ 102 then some (c.toNat - 87)
  else if 65 ≤ c.toNat ∧ c.toNat ≤ 70 then some (c.toNat - 55)
  else none

/-- `Buffer.from(·, 'hex')`: full valid pairs from the start, stop at the first
invalid or incomplete pair. -/
def hexDecode : List Char → List Nat
  | c1 :: c2 :: rest =>
    match hexVal c1, hexVal c2 with
    | some hi, some lo => (16 * hi + lo) :: hexDecode rest
    | _, _ => []
  | _ => []

/-! ## RequestValidator (webhook signature verification)

JS string truthiness matters here: `if (timestamp && deliveryId)` treats the
empty string like `undefined`. An absent option is `none`. -/

/-- JS truthiness of an optional string (`undefined` and `""` are falsy). -/
def jsTruthy : Option String → Bool
  | none => false
  | some s => s != ""

/-- `RequestValidator.buildStringToSign`. -/
def buildStringToSign (payload : String) (timestamp deliveryId : Option String) : String :=
  if jsTruthy timestamp && jsTruthy deliveryId then
    timestamp.getD "" ++ "." ++ deliveryId.getD "" ++ "." ++ payload
  else if jsTruthy timestamp then
    timestamp.getD "" ++ "." ++ payload
  else
    payload

/-- `RequestValidator.computeSignature`: HMAC-SHA256 over the canonical string,
rendered as lowercase hex. The validator's `authToken` is the shared secret. -/
def computeSignature (authToken payload : String) (timestamp deliveryId : Option String) :
    String :=
  ⟨hexEncodeBytes (hmacSha256 (strBytes authToken)
      (strBytes (buildStringToSign payload timestamp deliveryId)))⟩

/-- `RequestValidator.validate`: strip an optional `sha256=` prefix, hex-decode
both signatures, and compare timing-safely; `timingSafeEqual` throws on a
length mismatch, which the source catches and turns into `false`. -/
def validate (authToken payload signature : String) (timestamp deliveryId : Option String) :
    Bool :=
  let stringToSign := buildStringToSign payload timestamp deliveryId
  let expectedSignature := computeSignature authToken stringToSign none none
  let providedSignature :=
    if ("sha256=").data.isPrefixOf signature.data then signature.data.drop 7
    else signature.data
  let pb := hexDecode providedSignature
  let eb := hexDecode expectedSignature.data
  if pb.length = eb.length then pb == eb else false

/-! ## Retry interceptor (`Client.setupRetryInterceptor`) -/

/-- `RETRYABLE_STATUS_CODES` from `utils/constants`. -/
def RETRYABLE_STATUS_CODES : List Nat := [408, 429, 500, 502, 503, 504]

/-- Retry configuration (`RetryConfig`). -/
structure RetryConfig where
  maxRetries : Nat
  retryDelay : Nat
  retryableStatuses : List Nat
deriving DecidableEq, Repr

/-- `DEFAULT_RETRY_CONFIG` (`DEFAULTS.MAX_RETRIES = 3`, `DEFAULTS.RETRY_DELAY = 1000`). -/
def DEFAULT_RETRY_CONFIG : RetryConfig := ⟨3, 1000, RETRYABLE_STATUS_CODES⟩

/-- Axios' default `validateStatus`: 2xx responses fulfil, everything else
rejects into the error branch of the response interceptor. -/
def isSuccess (status : Nat) : Bool := 200 ≤ status && status < 300

/-- What the error branch of the interceptor decides for one failed response,
given the request's current `_retryCount`. -/
inductive RetryDecision where
  /-- resubmit after `delay` ms with the incremented counter -/
  | retry (delay : Nat) (newCount : Nat)
  /-- reject: propagate the failure -/
  | reject
deriving DecidableEq, Repr

/-- One evaluation of the interceptor's error branch: `shouldRetry` iff
`_retryCount < maxRetries` and the status is in `retryableStatuses`; on retry
the counter becomes `_retryCount + 1` and the delay is
`retryDelay * 2 ^ (_retryCount + 1 - 1)`. -/
def retryStep (cfg : RetryConfig) (retryCount : Nat) (status : Nat) : RetryDecision :=
  if retryCount < cfg.maxRetries && cfg.retryableStatuses.contains status then
    .retry (cfg.retryDelay * 2 ^ (retryCount + 1 - 1)) (retryCount + 1)
  else
    .reject

/-- Final outcome of one logical request. -/
inductive Outcome where
  | success (status : Nat)
  | failure (status : Nat)
deriving DecidableEq, Repr

/-- Trace of a request under the interceptor: the outcome, the total number of
attempts actually sent, and the backoff delays slept between attempts. -/
structure RetryTrace where
  outcome : Outcome
  attempts : Nat
  delays : List Nat
deriving DecidableEq, Repr

/-- Run a request against a scripted sequence of responses (one status per
attempt). Each attempt consumes one response; a 2xx fulfils; otherwise the
interceptor's error branch either resubmits (consuming further responses with
the incremented `_retryCount`) or rejects. `none` if the script is exhausted. -/
def runRetry (cfg : RetryConfig) : Nat → List Nat → Option RetryTrace
  | _, [] => none
  | retryCount, status :: rest =>
    if isSuccess status then some ⟨.success status, 1, []⟩
    else
      match retryStep cfg retryCount status with
      | .retry delay newCount =>
        match runRetry cfg newCount rest with
        | none => none
        | some t => some ⟨t.outcome, t.attempts + 1, delay :: t.delays⟩
      | .reject => some ⟨.failure status, 1, []⟩

/-! ## Error taxonomy (`src/errors/vocafuse-error.ts`)

The deep class hierarchy is flattened to one record; the dynamic class is the
`name` field, exactly as the source sets `this.name`. Opaque
`Record<string, unknown>` details are carried through untouched. -/

/-- Opaque stand-in for the `details` payload. -/
abbrev Details := List (String × String)

/-- `ErrorContext`. -/
structure ErrorContext where
  resourceType : Option String := none
  resourceId : Option String := none
  endpoint : Option String := none
  suggestion : Option String := none
deriving DecidableEq, Repr

/-- A constructed SDK error (any class of the taxonomy). -/
structure VFError where
  name : String
  message : String
  statusCode : Option Nat := none
  errorCode : Option String := none
  details : Option Details := none
  context : Option ErrorContext := none
  retryAfter : Option Int := none
deriving DecidableEq, Repr

/-- `new VocaFuseError(message, statusCode?, errorCode?, details?, context?)`. -/
def mkVocaFuseError (message : String) (statusCode : Option Nat := none)
    (errorCode : Option String := none) (details : Option Details := none)
    (context : Option ErrorContext := none) : VFError :=
  ⟨"VocaFuseError", message, statusCode, errorCode, details, context, none⟩

/-- JS `a || b` on an optional string inside a context merge. -/
def jsOrStr (a : Option String) (b : String) : String :=
  match a with
  | some s => if s = "" then b else s
  | none => b

/-- `new AuthenticationError(...)`: status 401, default suggestion unless the
caller already supplied one. -/
def mkAuthenticationError (message : String) (errorCode : Option String := none)
    (details : Option Details := none) (context : Option ErrorContext := none) : VFError :=
  let ctx := context.getD {}
  { mkVocaFuseError message (some 401) errorCode details
      (some { ctx with suggestion := some (jsOrStr ctx.suggestion
        "Verify your API key and secret are correct and not expired.") }) with
    name := "AuthenticationError" }

/-- `new AuthorizationError(...)`: status 403 with its default suggestion. -/
def mkAuthorizationError (message : String) (errorCode : Option String := none)
    (details : Option Details := none) (context : Option ErrorContext := none) : VFError :=
  let ctx := context.getD {}
  { mkVocaFuseError message (some 403) errorCode details
      (some { ctx with suggestion := some (jsOrStr ctx.suggestion
        "Check that your API key has the required permissions for this operation.") }) with
    name := "AuthorizationError" }

/-- `new ValidationError(...)`: status 400, no default suggestion. -/
def mkValidationError (message : String) (errorCode : Option String := none)
    (details : Option Details := none) (context : Option ErrorContext := none) : VFError :=
  { mkVocaFuseError message (some 400) errorCode details context with
    name := "ValidationError" }

/-- `new NotFoundError(...)`: status 404, no default suggestion. -/
def mkNotFoundError (message : String) (errorCode : Option String := none)
    (details : Option Details := none) (context : Option ErrorContext := none) : VFError :=
  { mkVocaFuseError message (some 404) errorCode details context with
    name := "NotFoundError" }

/-- `new ConflictError(...)`: status 409. -/
def mkConflictError (message : String) (errorCode : Option String := none)
    (details : Option Details := none) (context : Option ErrorContext := none) : VFError :=
  { mkVocaFuseError message (some 409) errorCode details context with
    name := "ConflictError" }

/-- `new RateLimitError(...)`: status 429; the default suggestion mentions the
concrete wait when `retryAfter` is known (and truthy — `0` is falsy in JS). -/
def mkRateLimitError (message : String) (errorCode : Option String := none)
    (details : Option Details := none) (context : Option ErrorContext := none)
    (retryAfter : Option Int := none) : VFError :=
  let ctx := context.getD {}
  let defaultSuggestion :=
    match retryAfter with
    | some n =>
      if n = 0 then "Rate limit exceeded. Please reduce request frequency."
      else s!"Rate limit exceeded. Retry after {n} seconds."
    | none => "Rate limit exceeded. Please reduce request frequency."
  { mkVocaFuseError message (some 429) errorCode details
      (some { ctx with suggestion := some (jsOrStr ctx.suggestion defaultSuggestion) }) with
    name := "RateLimitError"
    retryAfter := retryAfter }

/-- `new ServerError(message, statusCode, ...)`: caller-chosen 5xx status. -/
def mkServerError (message : String) (statusCode : Nat) (errorCode : Option String := none)
    (details : Option Details := none) (context : Option ErrorContext := none) : VFError :=
  let ctx := context.getD {}
  { mkVocaFuseError message (some statusCode) errorCode details
      (some { ctx with suggestion := some (jsOrStr ctx.suggestion
        "This is a server-side issue. Please try again later or contact support if it persists.") }) with
    name := "ServerError" }

/-- `new VoicenoteNotFoundError(...)`: a `NotFoundError` with voicenote context. -/
def mkVoicenoteNotFoundError (message : String) (errorCode : Option String := none)
    (details : Option Details := none) (voicenoteId : Option String := none) : VFError :=
  { mkNotFoundError message errorCode details
      (some { resourceType := some "voicenote", resourceId := voicenoteId,
              suggestion := some "Verify the voicenote ID exists and belongs to your account." }) with
    name := "VoicenoteNotFoundError" }

/-- `new WebhookNotFoundError(...)`. -/
def mkWebhookNotFoundError (message : String) (errorCode : Option String := none)
    (details : Option Details := none) (webhookId : Option String := none) : VFError :=
  { mkNotFoundError message errorCode details
      (some { resourceType := some "webhook", resourceId := webhookId,
              suggestion := some "Verify the webhook ID exists. Use client.webhooks.list() to see available webhooks." }) with
    name := "WebhookNotFoundError" }

/-- `new TranscriptionNotFoundError(...)`: the resource id is the owning
voicenote's id. -/
def mkTranscriptionNotFoundError (message : String) (errorCode : Option String := none)
    (details : Option Details := none) (voicenoteId : Option String := none) : VFError :=
  { mkNotFoundError message errorCode details
      (some { resourceType := some "transcription", resourceId := voicenoteId,
              suggestion := some "The voicenote may still be processing. Check voicenote.status before accessing transcription." }) with
    name := "TranscriptionNotFoundError" }

/-- `new APIKeyNotFoundError(...)`. -/
def mkAPIKeyNotFoundError (message : String) (errorCode : Option String := none)
    (details : Option Details := none) (apiKeyId : Option String := none) : VFError :=
  { mkNotFoundError message errorCode details
      (some { resourceType := some "api_key", resourceId := apiKeyId,
              suggestion := some "Verify the API key ID exists. Use client.apiKeys.list() to see available keys." }) with
    name := "APIKeyNotFoundError" }

/-! ## URL path classification (`src/errors/error-handler.ts`) -/

/-- JS `String.prototype.includes` on char lists. -/
def containsSubL : List Char → List Char → Bool
  | [], needle => needle.isEmpty
  | c :: rest, needle => needle.isPrefixOf (c :: rest) || containsSubL rest needle

/-- Leftmost match of `/{pat}([^/]+)(?:\/|$)/` (the shape of the `voicenote`,
`webhook` and `api_key` patterns): after the literal `pat`, the capture is the
maximal nonempty run of non-`/` characters, which is then necessarily followed
by `/` or the end of the string. -/
def capturePlainL (pat : List Char) : List Char → Option (List Char)
  | [] => none
  | c :: rest =>
    let s := c :: rest
    if pat.isPrefixOf s then
      let cap := (s.drop pat.length).takeWhile (fun x => !(x = '/'))
      if cap.isEmpty then capturePlainL pat rest else some cap
    else capturePlainL pat rest

/-- Leftmost match of `/voicenotes\/([^/]+)\/transcription/`: the greedy
nonempty non-`/` capture must be followed by the literal `/transcription`
(no shorter capture can be, since `/` cannot occur inside the capture). -/
def captureTransL : List Char → Option (List Char)
  | [] => none
  | c :: rest =>
    let s := c :: rest
    if ("voicenotes/").data.isPrefixOf s then
      let after := s.drop 11
      let cap := after.takeWhile (fun x => !(x = '/'))
      if !cap.isEmpty && ("/transcription").data.isPrefixOf (after.drop cap.length) then
        some cap
      else captureTransL rest
    else captureTransL rest

/-- `detectResourceType`: ordered checks, transcription first. -/
def detectResourceType (url : Option String) : Option String :=
  match url with
  | none => none
  | some u =>
    let l := u.data
    if containsSubL l ("/transcription").data || (captureTransL l).isSome then
      some "transcription"
    else if containsSubL l ("voicenotes/").data || containsSubL l ("/voicenotes").data then
      some "voicenote"
    else if containsSubL l ("webhooks/").data || containsSubL l ("/webhooks").data then
      some "webhook"
    else if containsSubL l ("api-keys/").data || containsSubL l ("/api-keys").data then
      some "api_key"
    else none

/-- `extractResourceId`: look up the pattern for the resource type and return
the first capture group of its leftmost match. -/
def extractResourceId (url : Option String) (resourceType : String) : Option String :=
  match url with
  | none => none
  | some u =>
    if resourceType = "voicenote" then
      (capturePlainL ("voicenotes/").data u.data).map (fun l => ⟨l⟩)
    else if resourceType = "webhook" then
      (capturePlainL ("webhooks/").data u.data).map (fun l => ⟨l⟩)
    else if resourceType = "api_key" then
      (capturePlainL ("api-keys/").data u.data).map (fun l => ⟨l⟩)
    else if resourceType = "transcription" then
      (captureTransL u.data).map (fun l => ⟨l⟩)
    else none

/-! ## `handleApiError` (the HTTP-failure path) -/

/-- Model of `parseInt(s, 10)`: optional sign then leading decimal digits;
`none` models `NaN`. -/
def parseIntD (s : String) : Option Int :=
  let p := match s.data with
    | '-' :: r => ((-1 : Int), r)
    | '+' :: r => ((1 : Int), r)
    | r => ((1 : Int), r)
  let digits := p.2.takeWhile (fun c => 48 ≤ c.toNat && c.toNat ≤ 57)
  if digits.isEmpty then none
  else some (p.1 * (digits.foldl (fun acc c => acc * 10 + (c.toNat - 48)) (0 : Nat) : Nat))

/-- The fields of an `AxiosError` that `handleApiError` reads. `none` models
an absent (`undefined`) field along the optional-chaining path. -/
structure AxiosFailure where
  /-- `error.response?.status` -/
  status : Option Nat := none
  /-- `error.response?.data?.error?.message` -/
  bodyMessage : Option String := none
  /-- `error.response?.data?.error?.code` -/
  bodyCode : Option String := none
  /-- `error.response?.data?.error?.details` -/
  bodyDetails : Option Details := none
  /-- `error.message` -/
  axiosMessage : String := ""
  /-- `error.config?.url` -/
  url : Option String := none
  /-- `error.response?.headers?.['retry-after']` -/
  retryAfterHeader : Option String := none
deriving DecidableEq, Repr

/-- `handleApiError` restricted to genuine axios failures (the pass-through of
an already-typed error and the non-HTTP wrap precede this in the source). -/
def handleApiError (e : AxiosFailure) : VFError :=
  let message := jsOrStr e.bodyMessage (jsOrStr (some e.axiosMessage) "An error occurred")
  let errorCode := e.bodyCode
  let details := e.bodyDetails
  let requestUrl := e.url
  let resourceType := detectResourceType requestUrl
  let resourceId :=
    match resourceType with
    | some rt => extractResourceId requestUrl rt
    | none => none
  if e.status = some 401 then
    mkAuthenticationError message errorCode details (some { endpoint := requestUrl })
  else if e.status = some 403 then
    mkAuthorizationError message errorCode details (some { endpoint := requestUrl })
  else if e.status = some 400 then
    mkValidationError message errorCode details (some { endpoint := requestUrl })
  else if e.status = some 404 then
    if resourceType = some "transcription" then
      mkTranscriptionNotFoundError message errorCode details resourceId
    else if resourceType = some "voicenote" then
      mkVoicenoteNotFoundError message errorCode details resourceId
    else if resourceType = some "webhook" then
      mkWebhookNotFoundError message errorCode details resourceId
    else if resourceType = some "api_key" then
      mkAPIKeyNotFoundError message errorCode details resourceId
    else
      mkNotFoundError message errorCode details (some { endpoint := requestUrl })
  else if e.status = some 409 then
    mkConflictError message errorCode details (some { endpoint := requestUrl })
  else if e.status = some 429 then
    let retryAfterSeconds :=
      if jsTruthy e.retryAfterHeader then parseIntD (e.retryAfterHeader.getD "") else none
    mkRateLimitError message errorCode details (some { endpoint := requestUrl }) retryAfterSeconds
  else
    match e.status with
    | some s =>
      if 500 ≤ s then mkServerError message s errorCode details (some { endpoint := requestUrl })
      else mkVocaFuseError message (some s) errorCode details (some { endpoint := requestUrl })
    | none => mkVocaFuseError message none errorCode details (some { endpoint := requestUrl })

/-- `VocaFuseError.friendlyMessage`: base message, then
`" ({resourceType || 'resource'}: {resourceId})"` when `context?.resourceId` is
truthy, then `". {suggestion}"` when `context?.suggestion` is truthy. -/
def friendlyMessage (e : VFError) : String :=
  let msg := e.message
  let msg :=
    if jsTruthy (e.context.bind (·.resourceId)) then
      msg ++ " (" ++ jsOrStr (e.context.bind (·.resourceType)) "resource" ++ ": " ++
        (e.context.bind (·.resourceId)).getD "" ++ ")"
    else msg
  let msg :=
    if jsTruthy (e.context.bind (·.suggestion)) then
      msg ++ ". " ++ (e.context.bind (·.suggestion)).getD ""
    else msg
  msg

/-! ## Voicenotes resource (`src/resources/voicenotes.ts`) -/

/-- `DEFAULTS.PAGE_LIMIT`. -/
def PAGE_LIMIT : Int := 50

/-- `DEFAULTS.MAX_PAGE_LIMIT`. -/
def MAX_PAGE_LIMIT : Int := 100

/-- JS `a || b` on an optional number (`undefined` and `0` are falsy). -/
def jsOrNum (a : Option Int) (b : Int) : Int :=
  match a with
  | some n => if n = 0 then b else n
  | none => b

/-- The pagination-relevant fields of `ListVoicenotesOptions`. -/
structure ListOptions where
  page : Option Int := none
  limit : Option Int := none
deriving DecidableEq, Repr

/-- The pagination query parameters `VoicenotesResourceImpl.list` actually
sends: `page: options?.page || 0` and
`limit: Math.min(options?.limit || DEFAULTS.PAGE_LIMIT, DEFAULTS.MAX_PAGE_LIMIT)`. -/
structure SentParams where
  page : Int
  limit : Int
deriving DecidableEq, Repr

/-- Query-parameter construction of `VoicenotesResourceImpl.list`. -/
def listParams (options : Option ListOptions) : SentParams :=
  { page := jsOrNum (options.bind (·.page)) 0
    limit := min (jsOrNum (options.bind (·.limit)) PAGE_LIMIT) MAX_PAGE_LIMIT }

/-- `pagination` metadata of a list response. -/
structure PageMeta where
  has_more : Bool
deriving DecidableEq, Repr

/-- One page returned by the list operation. -/
structure ListResponse (α : Type) where
  data : List α
  pagination : Option PageMeta := none
deriving DecidableEq, Repr

/-- Pull-semantics of the async generator `VoicenotesResourceImpl.iterate`:
`server` is the underlying list call indexed by page number, `demand` is how
many items the consumer pulls before stopping. Returns the yielded items and
the number of list calls issued. The generator fetches a page only when an
item beyond the already-yielded ones is demanded (it suspends at each `yield`),
reads `response.pagination?.has_more ?? false` after yielding a page, and on
`has_more` continues with `page + 1`. `fuel` bounds the page loop. -/
def iteratePull {α : Type} (server : Int → ListResponse α) :
    Nat → Int → Nat → List α × Nat
  | 0, _, _ => ([], 0)
  | _ + 1, _, 0 => ([], 0)
  | fuel + 1, page, demand =>
    let r := server page
    let taken := r.data.take demand
    if demand ≤ r.data.length then (taken, 1)
    else
      let hasMore := (r.pagination.map (·.has_more)).getD false
      if hasMore then
        let rest := iteratePull server fuel (page + 1) (demand - r.data.length)
        (taken ++ rest.1, rest.2 + 1)
      else (taken, 1)

/-- `iterate` begins at `options?.page || 0`. -/
def iterateRun {α : Type} (server : Int → ListResponse α) (options : Option ListOptions)
    (fuel demand : Nat) : List α × Nat :=
  iteratePull server fuel (jsOrNum (options.bind (·.page)) 0) demand

/-- Test fixture for the pagination claims: two pages of two items each,
`has_more = true` on the first page and `false` on the second. -/
def twoPageServer : Int → ListResponse Nat := fun p =>
  if p = 0 then ⟨[1, 2], some ⟨true⟩⟩
  else if p = 1 then ⟨[3, 4], some ⟨false⟩⟩
  else ⟨[], none⟩

/-! # Theorems -/

/-- C1: on a failure whose status is retryable and whose attempt counter is
below `maxRetries`, the interceptor waits `retryDelay * 2 ^ attemptsSoFar`,
increments the counter, and resubmits (the run consumes the next scripted
response at the incremented counter); for responses `[500, 500, 200]` under the
default config (`maxRetries = 3`) the outcome is the 200 success after exactly
3 attempts (with backoff delays 1000 and 2000 ms); with `maxRetries = 0` a
single 500 rejects immediately after one attempt, and the classifier turns a
500 failure into a typed `ServerError`. -/
theorem retry_backoff_resubmission_C1 :
    (∀ (cfg : RetryConfig) (count status : Nat) (rest : List Nat),
        isSuccess status = false →
        cfg.retryableStatuses.contains status = true →
        count < cfg.maxRetries →
        retryStep cfg count status = .retry (cfg.retryDelay * 2 ^ count) (count + 1) ∧
        runRetry cfg count (status :: rest) =
          (runRetry cfg (count + 1) rest).map
            (fun t => ⟨t.outcome, t.attempts + 1, cfg.retryDelay * 2 ^ count :: t.delays⟩)) ∧
    runRetry DEFAULT_RETRY_CONFIG 0 [500, 500, 200] =
      some ⟨.success 200, 3, [1000, 2000]⟩ ∧
    runRetry { DEFAULT_RETRY_CONFIG with maxRetries := 0 } 0 [500] =
      some ⟨.failure 500, 1, []⟩ ∧
    (handleApiError
      { status := some 500, axiosMessage := "Request failed with status code 500" }).name =
      "ServerError" := by
  refine ⟨fun cfg count status rest hs hmem hlt => ?_, by decide, by decide, by decide⟩
  have hmem' : status ∈ cfg.retryableStatuses := by simpa using hmem
  have hstep : retryStep cfg count status =
      .retry (cfg.retryDelay * 2 ^ count) (count + 1) := by
    simp [retryStep, hmem', hlt]
  refine ⟨hstep, ?_⟩
  rw [runRetry, hs]
  simp only [Bool.false_eq_true, if_false, hstep]
  rcases h : runRetry cfg (count + 1) rest with _ | t <;> simp [h]

/-- C1 witness: the general retry step applied at the default config, counter
0, a 500 response and one remaining scripted response. -/
theorem retry_backoff_resubmission_C1_witness :
    retryStep DEFAULT_RETRY_CONFIG 0 500 =
      .retry (DEFAULT_RETRY_CONFIG.retryDelay * 2 ^ 0) (0 + 1) ∧
    runRetry DEFAULT_RETRY_CONFIG 0 (500 :: [200]) =
      (runRetry DEFAULT_RETRY_CONFIG (0 + 1) [200]).map
        (fun t => ⟨t.outcome, t.attempts + 1,
          DEFAULT_RETRY_CONFIG.retryDelay * 2 ^ 0 :: t.delays⟩) :=
  retry_backoff_resubmission_C1.1 DEFAULT_RETRY_CONFIG 0 500 [200]
    (by decide) (by decide) (by decide)

/-- C8: with the default retryable status set, a 400 response is never
resubmitted, whatever `maxRetries`, `retryDelay` and the current attempt
counter are: the interceptor's step rejects, and the run propagates the 400
failure immediately after a single attempt, with no backoff sleep. -/
theorem never_retry_400_C8 (maxRetries retryDelay count : Nat) (rest : List Nat) :
    retryStep ⟨maxRetries, retryDelay, RETRYABLE_STATUS_CODES⟩ count 400 = .reject ∧
    runRetry ⟨maxRetries, retryDelay, RETRYABLE_STATUS_CODES⟩ count (400 :: rest) =
      some ⟨.failure 400, 1, []⟩ := by
  have hm : (400 : Nat) ∉ RETRYABLE_STATUS_CODES := by decide
  have hstep : retryStep ⟨maxRetries, retryDelay, RETRYABLE_STATUS_CODES⟩ count 400 =
      .reject := by
    simp [retryStep, hm]
  refine ⟨hstep, ?_⟩
  rw [runRetry, hstep]
  rfl

/-- C6: against two pages of sizes 2 and 2 with `has_more` `true` then `false`,
pulling the iterator to completion yields exactly `[1, 2, 3, 4]` in request
order with exactly 2 underlying list calls (whether the consumer stops after
the 4th item or pulls once more and observes the end), while stopping after
the 2nd yielded item issues only 1 list call — no page is fetched before an
item from it is demanded. -/
theorem iterate_pagination_C6 :
    iterateRun twoPageServer none 10 5 = ([1, 2, 3, 4], 2) ∧
    iterateRun twoPageServer none 10 4 = ([1, 2, 3, 4], 2) ∧
    iterateRun twoPageServer none 10 2 = ([1, 2], 1) ∧
    iterateRun twoPageServer none 10 0 = ([], 0) := by
  decide

/-- C7 counterexample: a caller-supplied limit of `-5` is truthy in JS, so it
skips the `|| 50` default, and `Math.min(-5, 100)` leaves it at `-5`: the sent
limit is `-5`, outside `[1, 100]`, refuting the claim that every
caller-supplied limit is sent within `[1, 100]`. -/
theorem list_limit_bounds_C7_counterexample :
    (listParams (some { limit := some (-5) })).limit = -5 ∧
    ¬(1 ≤ (listParams (some { limit := some (-5) })).limit ∧
      (listParams (some { limit := some (-5) })).limit ≤ 100) := by
  decide

/-- C7 amended: an omitted limit is sent as the default 50, a limit of 0 is
falsy and also becomes the default 50, and every positive caller-supplied
limit is capped at 100 and hence sent within `[1, 100]`; but a negative limit
passes through unchanged (no lower clamp). -/
theorem list_limit_bounds_C7 :
    (listParams none).limit = 50 ∧
    (∀ p : Option Int, (listParams (some { page := p, limit := none })).limit = 50) ∧
    (∀ p : Option Int, (listParams (some { page := p, limit := some 0 })).limit = 50) ∧
    (∀ (p : Option Int) (l : Int), 0 < l →
      1 ≤ (listParams (some { page := p, limit := some l })).limit ∧
      (listParams (some { page := p, limit := some l })).limit ≤ 100) ∧
    (∀ (p : Option Int) (l : Int), l < 0 →
      (listParams (some { page := p, limit := some l })).limit = l) := by
  refine ⟨by decide, fun p => rfl, fun p => rfl, fun p l hl => ?_, fun p l hl => ?_⟩
  · have hne : l ≠ 0 := by omega
    have h1 : (listParams (some { page := p, limit := some l })).limit = min l 100 := by
      simp [listParams, jsOrNum, hne, MAX_PAGE_LIMIT]
    rw [h1]
    refine ⟨?_, ?_⟩ <;> omega
  · have hne : l ≠ 0 := by omega
    have h1 : (listParams (some { page := p, limit := some l })).limit = min l 100 := by
      simp [listParams, jsOrNum, hne, MAX_PAGE_LIMIT]
    rw [h1]
    omega

/-- C7 witness: the amended bounds applied at the concrete limits 250 and -5. -/
theorem list_limit_bounds_C7_witness :
    (1 ≤ (listParams (some { page := none, limit := some 250 })).limit ∧
      (listParams (some { page := none, limit := some 250 })).limit ≤ 100) ∧
    (listParams (some { page := none, limit := some (-5) })).limit = -5 :=
  ⟨list_limit_bounds_C7.2.2.2.1 none 250 (by decide),
   list_limit_bounds_C7.2.2.2.2 none (-5) (by decide)⟩

/-- C9 counterexample: an error whose `context.resourceId` is set to the empty
string gets no resource annotation (JS truthiness: `""` is falsy), refuting
"the annotation appears exactly when `context.resourceId` is set". -/
theorem friendly_message_C9_counterexample :
    friendlyMessage (mkVocaFuseError "boom" none none none
      (some { resourceType := some "voicenote", resourceId := some "" })) = "boom" ∧
    friendlyMessage (mkVocaFuseError "boom" none none none
      (some { resourceType := some "voicenote", resourceId := some "" })) ≠
      "boom (voicenote: )" := by
  decide

/-- C9 amended: the composite message is the base message, followed by the
resource annotation `" ({resourceType}: {resourceId})"` exactly when
`context.resourceId` is set *and nonempty* (with the literal word `resource`
substituted when `resourceType` is unset or empty), followed by
`". {suggestion}"` exactly when `context.suggestion` is set and nonempty; an
error with a `resourceType` but no `resourceId` gets no annotation. -/
theorem friendly_message_C9 :
    (∀ e : VFError, jsTruthy (e.context.bind (·.resourceId)) = false →
      friendlyMessage e = e.message ++
        (if jsTruthy (e.context.bind (·.suggestion)) then
          ". " ++ (e.context.bind (·.suggestion)).getD "" else "")) ∧
    (∀ (e : VFError) (rid : String), e.context.bind (·.resourceId) = some rid → rid ≠ "" →
      friendlyMessage e =
        e.message ++ " (" ++ jsOrStr (e.context.bind (·.resourceType)) "resource" ++ ": " ++
          rid ++ ")" ++
        (if jsTruthy (e.context.bind (·.suggestion)) then
          ". " ++ (e.context.bind (·.suggestion)).getD "" else "")) ∧
    (∀ (nm msg rt : String) (ep sugg : Option String) (sc : Option Nat) (ec : Option String)
        (dt : Option Details) (ra : Option Int),
      friendlyMessage ⟨nm, msg, sc, ec, dt, some ⟨some rt, none, ep, sugg⟩, ra⟩ =
        msg ++ (if jsTruthy sugg then ". " ++ sugg.getD "" else "")) := by
  refine ⟨fun e h => ?_, fun e rid h hne => ?_, fun nm msg rt ep sugg sc ec dt ra => ?_⟩
  · simp only [friendlyMessage, h, Bool.false_eq_true, if_false]
    split <;> simp_all [String.append_assoc]
  · simp only [friendlyMessage, h, jsTruthy, hne, Option.getD_some]
    (split <;> simp_all [String.append_assoc, hne])
    rw [show ("). " : String) = ")" ++ ". " from rfl, String.append_assoc]
  · simp only [friendlyMessage, jsTruthy, Option.bind_some]
    split <;> simp_all [String.append_assoc]

/-- C9 witness: the amended rule applied to an error with a nonempty
resource id, resource type and suggestion. -/
theorem friendly_message_C9_witness :
    friendlyMessage (mkVocaFuseError "gone" (some 404) none none
      (some { resourceType := some "voicenote", resourceId := some "vn_1",
              suggestion := some "Check." })) = "gone (voicenote: vn_1). Check." := by
  have h := friendly_message_C9.2.1
    (mkVocaFuseError "gone" (some 404) none none
      (some { resourceType := some "voicenote", resourceId := some "vn_1",
              suggestion := some "Check." }))
    "vn_1" (by decide) (by decide)
  exact h.trans (by decide)

/-- An empty-string timestamp is falsy, so the canonical string ignores both
options, exactly as with no options. -/
theorem buildStringToSign_empty_timestamp (P : String) (did : Option String) :
    buildStringToSign P (some "") did = buildStringToSign P none none := by
  simp [buildStringToSign, jsTruthy]

/-- An empty-string delivery id is falsy, so the canonical string falls back to
the timestamp-only form. -/
theorem buildStringToSign_empty_deliveryId (P T : String) :
    buildStringToSign P (some T) (some "") = buildStringToSign P (some T) none := by
  simp [buildStringToSign, jsTruthy]

/-- C10: the validator treats empty-string options like absent ones: for every
payload, secret and delivery id, signing with `timestamp = ""` equals signing
with no options at all, and signing with `deliveryId = ""` equals signing with
the timestamp alone; `validate` behaves correspondingly. -/
theorem empty_string_options_C10 :
    (∀ (S P : String) (did : Option String),
      computeSignature S P (some "") did = computeSignature S P none none) ∧
    (∀ S P T : String,
      computeSignature S P (some T) (some "") = computeSignature S P (some T) none) ∧
    (∀ (S P sig : String) (did : Option String),
      validate S P sig (some "") did = validate S P sig none none) ∧
    (∀ S P sig T : String,
      validate S P sig (some T) (some "") = validate S P sig (some T) none) := by
  refine ⟨fun S P did => ?_, fun S P T => ?_, fun S P sig did => ?_, fun S P sig T => ?_⟩
  · unfold computeSignature
    rw [buildStringToSign_empty_timestamp]
  · unfold computeSignature
    rw [buildStringToSign_empty_deliveryId]
  · unfold validate
    rw [buildStringToSign_empty_timestamp]
  · unfold validate
    rw [buildStringToSign_empty_deliveryId]

/-! ## Lemmas about hex encoding and the digest shape -/

theorem and255_lt (n : Nat) : n &&& 255 < 256 :=
  Nat.lt_succ_of_le Nat.and_le_right

theorem wordBytes_lt {b w : Nat} (hb : b ∈ wordBytes w) : b < 256 := by
  simp [wordBytes] at hb
  rcases hb with rfl | rfl | rfl | rfl <;> exact and255_lt _

theorem digestBytes_length (H : Digest8) : (digestBytes H).length = 32 := by
  simp [digestBytes, wordBytes]

theorem digestBytes_lt {b : Nat} {H : Digest8} (hb : b ∈ digestBytes H) : b < 256 := by
  simp only [digestBytes, List.mem_append] at hb
  rcases hb with ((((((h | h) | h) | h) | h) | h) | h) | h <;> exact wordBytes_lt h

theorem sha256_length (m : List Nat) : (sha256 m).length = 32 :=
  digestBytes_length _

theorem sha256_lt {b : Nat} {m : List Nat} (hb : b ∈ sha256 m) : b < 256 :=
  digestBytes_lt hb

theorem hmacSha256_length (key m : List Nat) : (hmacSha256 key m).length = 32 :=
  sha256_length _

theorem hmacSha256_lt {b : Nat} {key m : List Nat} (hb : b ∈ hmacSha256 key m) : b < 256 :=
  sha256_lt hb

theorem hexVal_hexDigit : ∀ n < 16, hexVal (hexDigit n) = some n := by decide

theorem hexDigit_ne_s : ∀ n < 16, (('s' == hexDigit n) = false) := by decide

/-- Two hex characters decode back to the byte they encode. -/
theorem hexDecode_hexEncode {bs : List Nat} (h : ∀ b ∈ bs, b < 256) :
    hexDecode (hexEncodeBytes bs) = bs := by
  induction bs with
  | nil => rfl
  | cons b rest ih =>
    have hb : b < 256 := h b (List.mem_cons_self b rest)
    have hdiv : b / 16 < 16 := by omega
    have hmod : b % 16 < 16 := by omega
    have hcons : hexEncodeBytes (b :: rest) =
        hexDigit (b / 16) :: hexDigit (b % 16) :: hexEncodeBytes rest := by
      simp [hexEncodeBytes]
    rw [hcons, hexDecode, hexVal_hexDigit _ hdiv, hexVal_hexDigit _ hmod]
    rw [ih (fun x hx => h x (List.mem_cons_of_mem b hx))]
    have hdm : 16 * (b / 16) + b % 16 = b := by omega
    show (16 * (b / 16) + b % 16) :: rest = b :: rest
    rw [hdm]

/-- A hex-encoded digest can never carry the `sha256=` prefix. -/
theorem sigPrefix_false {bs : List Nat} (hne : bs ≠ []) (h : ∀ b ∈ bs, b < 256) :
    ("sha256=").data.isPrefixOf (hexEncodeBytes bs) = false := by
  rcases bs with _ | ⟨b, rest⟩
  · exact absurd rfl hne
  · have hb : b < 256 := h b (List.mem_cons_self b rest)
    have hdiv : b / 16 < 16 := by omega
    have hcons : hexEncodeBytes (b :: rest) =
        hexDigit (b / 16) :: hexDigit (b % 16) :: hexEncodeBytes rest := by
      simp [hexEncodeBytes]
    rw [hcons]
    show ('s' == hexDigit (b / 16) && _) = false
    rw [hexDigit_ne_s _ hdiv, Bool.false_and]

/-- The no-options canonical string is the payload itself. -/
theorem buildStringToSign_none (P : String) : buildStringToSign P none none = P := rfl

/-- Decoding the expected signature recovers the HMAC digest over the
canonical string. -/
theorem hexDecode_computeSignature (S P : String) (ts did : Option String) :
    hexDecode (computeSignature S P ts did).data =
      hmacSha256 (strBytes S) (strBytes (buildStringToSign P ts did)) := by
  show hexDecode (hexEncodeBytes (hmacSha256 (strBytes S)
    (strBytes (buildStringToSign P ts did)))) = _
  exact hexDecode_hexEncode (fun b hb => hmacSha256_lt hb)

/-- Validating a signature produced by `computeSignature` (under a possibly
different secret `S` and possibly different options) reduces to comparing the
HMAC digest the signer produced with the digest the validator recomputes. -/
theorem validate_computeSignature_eq (S S' P : String) (ts did ts' did' : Option String) :
    validate S' P (computeSignature S P ts did) ts' did' =
      (hmacSha256 (strBytes S) (strBytes (buildStringToSign P ts did)) ==
       hmacSha256 (strBytes S') (strBytes (buildStringToSign P ts' did'))) := by
  have hlenS : (hmacSha256 (strBytes S) (strBytes (buildStringToSign P ts did))).length = 32 :=
    hmacSha256_length _ _
  have hneS : hmacSha256 (strBytes S) (strBytes (buildStringToSign P ts did)) ≠ [] := by
    intro h0
    rw [h0] at hlenS
    exact absurd hlenS (by decide)
  have hpre : ("sha256=").data.isPrefixOf (computeSignature S P ts did).data = false := by
    show ("sha256=").data.isPrefixOf (hexEncodeBytes _) = false
    exact sigPrefix_false hneS (fun b hb => hmacSha256_lt hb)
  unfold validate
  rw [hpre]
  show (if (hexDecode (computeSignature S P ts did).data).length =
      (hexDecode (computeSignature S' (buildStringToSign P ts' did') none none).data).length then
      hexDecode (computeSignature S P ts did).data ==
        hexDecode (computeSignature S' (buildStringToSign P ts' did') none none).data
    else false) = _
  rw [hexDecode_computeSignature, hexDecode_computeSignature, buildStringToSign_none,
    hmacSha256_length, hmacSha256_length, if_pos rfl]

/-- `validate` returns `false` (rather than throwing) whenever the decoded
provided signature and the decoded expected signature differ in length —
`timingSafeEqual`'s length exception is caught and mapped to `false`. -/
theorem validate_length_mismatch {S P sig : String} {ts did : Option String}
    (h : (hexDecode (if ("sha256=").data.isPrefixOf sig.data then sig.data.drop 7
            else sig.data)).length ≠
         (hexDecode (computeSignature S (buildStringToSign P ts did) none none).data).length) :
    validate S P sig ts did = false := by
  simp only [validate]
  rw [if_neg h]

/-- C3 counterexample: HMAC keys are zero-padded to the 64-byte block, so the
distinct secrets `""` and `"\x00"` are HMAC-equivalent: a signature computed
under `""` validates under `"\x00"`, refuting "for any secret `S' ≠ S`,
validation returns false". -/
theorem roundtrip_distinct_secret_C3_counterexample :
    ("" : String) ≠ "\x00" ∧
    validate "\x00" "event: voicenote.transcribed"
      (computeSignature "" "event: voicenote.transcribed" none none)
      none none = true := by
  have hpad : padKey (strBytes "") = padKey (strBytes "\x00") := by decide
  have hkey : ∀ m, hmacSha256 (strBytes "") m = hmacSha256 (strBytes "\x00") m := by
    intro m
    unfold hmacSha256
    rw [hpad]
  refine ⟨by decide, ?_⟩
  rw [validate_computeSignature_eq, hkey]
  simp

/-- C3 amended: same-secret round-trips always validate (for every payload,
secret and choice of options supplied identically to both calls); under a
different secret, validation succeeds exactly when the two secrets' HMAC
digests over the same canonical string coincide — so any secret whose digest
differs is rejected, but HMAC-equivalent distinct secrets (such as a secret
and its zero-byte-padded variant) still validate. -/
theorem roundtrip_validation_C3 :
    (∀ (S P : String) (ts did : Option String),
      validate S P (computeSignature S P ts did) ts did = true) ∧
    (∀ (S S' P : String) (ts did : Option String),
      validate S' P (computeSignature S P ts did) ts did =
        (hmacSha256 (strBytes S) (strBytes (buildStringToSign P ts did)) ==
         hmacSha256 (strBytes S') (strBytes (buildStringToSign P ts did)))) := by
  refine ⟨fun S P ts did => ?_, fun S S' P ts did =>
    validate_computeSignature_eq S S' P ts did ts did⟩
  rw [validate_computeSignature_eq]
  simp

/-- C4: `validate` total-functionally returns a boolean on every signature
string; whenever the decoded provided signature's length differs from the
decoded expected digest's length (as with any malformed, non-hex, too-short or
too-long signature), the result is `false` rather than an exception — in
particular for a 3-character garbage signature and a 200-character garbage
signature. -/
theorem validate_malformed_C4 :
    (∀ (S P sig : String) (ts did : Option String),
      (hexDecode (if ("sha256=").data.isPrefixOf sig.data then sig.data.drop 7
          else sig.data)).length ≠
        (hexDecode (computeSignature S (buildStringToSign P ts did) none none).data).length →
      validate S P sig ts did = false) ∧
    validate "whsec_test" "payload" "xy!" none none = false ∧
    validate "whsec_test" "payload" ⟨List.replicate 200 'z'⟩ none none = false := by
  refine ⟨fun S P sig ts did h => validate_length_mismatch h, ?_, ?_⟩ <;>
    (apply validate_length_mismatch
     rw [hexDecode_computeSignature, hmacSha256_length]
     decide)

/-- C4 witness: the length-mismatch rule applied to the concrete 8-character
signature `"deadbeef"` (which decodes to 4 bytes, not 32). -/
theorem validate_malformed_C4_witness :
    validate "whsec_test" "payload" "deadbeef" none none = false :=
  validate_malformed_C4.1 "whsec_test" "payload" "deadbeef" none none
    (by rw [hexDecode_computeSignature, hmacSha256_length]; decide)

set_option maxRecDepth 10000 in
/-- The two concrete canonical strings of the C5 scenario hash differently
under HMAC-SHA256 with the secret `"whsec"`. -/
theorem hmac_timestamp_digest_ne :
    hmacSha256 (strBytes "whsec") (strBytes "1700000000.payload") ≠
      hmacSha256 (strBytes "whsec") (strBytes "payload") := by
  decide

/-- C5: the canonical signing string is exactly
`"{timestamp}.{deliveryId}.{payload}"` when both options are given (nonempty),
`"{timestamp}.{payload}"` when only the timestamp is given, and the bare
payload otherwise; concretely, signing `"payload"` with timestamp
`"1700000000"` under secret `"whsec"` differs from signing without a
timestamp, and validating that signature without supplying the timestamp
fails. -/
theorem canonical_string_C5 :
    (∀ P T D : String, T ≠ "" → D ≠ "" →
      buildStringToSign P (some T) (some D) = T ++ "." ++ D ++ "." ++ P) ∧
    (∀ P T : String, T ≠ "" →
      buildStringToSign P (some T) none = T ++ "." ++ P) ∧
    (∀ (P : String) (did : Option String), buildStringToSign P none did = P) ∧
    computeSignature "whsec" "payload" (some "1700000000") none ≠
      computeSignature "whsec" "payload" none none ∧
    validate "whsec" "payload"
      (computeSignature "whsec" "payload" (some "1700000000") none) none none = false := by
  have hb1 : buildStringToSign "payload" (some "1700000000") none = "1700000000.payload" := by
    decide
  refine ⟨fun P T D hT hD => ?_, fun P T hT => ?_, fun P did => ?_, fun heq => ?_, ?_⟩
  · simp [buildStringToSign, jsTruthy, hT, hD]
  · simp [buildStringToSign, jsTruthy, hT]
  · simp [buildStringToSign, jsTruthy]
  · apply hmac_timestamp_digest_ne
    have h1 := hexDecode_computeSignature "whsec" "payload" (some "1700000000") none
    have h2 := hexDecode_computeSignature "whsec" "payload" none none
    rw [hb1] at h1
    rw [buildStringToSign_none] at h2
    rw [← h1, ← h2, heq]
  · rw [validate_computeSignature_eq, hb1, buildStringToSign_none]
    exact beq_eq_false_iff_ne.mpr hmac_timestamp_digest_ne

/-- C5 witness: the both-options canonical form at concrete nonempty
timestamp and delivery id. -/
theorem canonical_string_C5_witness :
    buildStringToSign "p" (some "t") (some "d") = "t" ++ "." ++ "d" ++ "." ++ "p" :=
  canonical_string_C5.1 "p" "t" "d" (by decide) (by decide)

/-! ## Lemmas about substring search and the URL patterns -/

theorem isPrefixOf_nil_right (needle : List Char) :
    needle.isPrefixOf ([] : List Char) = needle.isEmpty := by
  cases needle <;> rfl

/-- `includes` finds the needle iff it is a prefix of some suffix. -/
theorem containsSubL_iff (l needle : List Char) :
    containsSubL l needle = true ↔ ∃ i, needle.isPrefixOf (l.drop i) = true := by
  induction l with
  | nil =>
    rw [containsSubL]
    constructor
    · intro h
      exact ⟨0, by simpa [isPrefixOf_nil_right] using h⟩
    · rintro ⟨i, hi⟩
      simpa [isPrefixOf_nil_right] using hi
  | cons c rest ih =>
    rw [containsSubL, Bool.or_eq_true, ih]
    constructor
    · rintro (h | ⟨i, hi⟩)
      · exact ⟨0, h⟩
      · exact ⟨i + 1, hi⟩
    · rintro ⟨i, hi⟩
      cases i with
      | zero => exact Or.inl hi
      | succ j => exact Or.inr ⟨j, hi⟩

/-- If the needle's head never occurs in the haystack, `includes` fails. -/
theorem containsSubL_noSlash (t l : List Char) (h : ∀ c ∈ l, c ≠ '/') :
    containsSubL l ('/' :: t) = false := by
  induction l with
  | nil => rfl
  | cons c rest ih =>
    have hc : ('/' == c) = false :=
      beq_eq_false_iff_ne.mpr (Ne.symm (h c (List.mem_cons_self c rest)))
    have hp : ('/' :: t).isPrefixOf (c :: rest) = false := by
      show (('/' == c) && t.isPrefixOf rest) = false
      rw [hc, Bool.false_and]
    rw [containsSubL, hp, Bool.false_or]
    exact ih (fun x hx => h x (List.mem_cons_of_mem c hx))

/-- Dropping the needle's head: `includes` of `c :: t` entails `includes` of `t`. -/
theorem containsSubL_tail {l t : List Char} {c : Char}
    (h : containsSubL l (c :: t) = true) : containsSubL l t = true := by
  rw [containsSubL_iff] at h ⊢
  obtain ⟨i, hi⟩ := h
  rcases hd : l.drop i with _ | ⟨x, rest⟩
  · rw [hd] at hi
    exact absurd hi (by simp [isPrefixOf_nil_right])
  · rw [hd] at hi
    have hx : (c :: t).isPrefixOf (x :: rest) = ((c == x) && t.isPrefixOf rest) := rfl
    rw [hx, Bool.and_eq_true] at hi
    refine ⟨i + 1, ?_⟩
    have hdd := List.drop_drop 1 i l
    rw [hd] at hdd
    have h1 : List.drop 1 (x :: rest) = rest := rfl
    rw [h1] at hdd
    have hrest : l.drop (i + 1) = rest := by
      rw [hdd]
    rw [hrest]
    exact hi.2

/-- Shortening the needle on the right: `includes` of `n ++ x` entails
`includes` of `n`. -/
theorem containsSubL_init {l n x : List Char}
    (h : containsSubL l (n ++ x) = true) : containsSubL l n = true := by
  rw [containsSubL_iff] at h ⊢
  obtain ⟨i, hi⟩ := h
  refine ⟨i, ?_⟩
  rw [List.isPrefixOf_iff_prefix] at hi ⊢
  exact (List.prefix_append n x).trans hi

/-- The transcription regex can only match when `"/transcription"` occurs. -/
theorem captureTransL_none {l : List Char}
    (h : containsSubL l (("/transcription").data) = false) : captureTransL l = none := by
  induction l with
  | nil => rfl
  | cons c rest ih =>
    have hsplit : ("/transcription").data.isPrefixOf (c :: rest) = false ∧
        containsSubL rest (("/transcription").data) = false := by
      rw [containsSubL, Bool.or_eq_false_iff] at h
      exact h
    rw [captureTransL]
    split
    · dsimp only
      split
      · rename_i hcond
        exfalso
        rw [Bool.and_eq_true] at hcond
        have hpre := hcond.2
        rw [List.drop_drop] at hpre
        have : containsSubL (c :: rest) (("/transcription").data) = true := by
          rw [containsSubL_iff]
          exact ⟨_, hpre⟩
        rw [containsSubL, hsplit.1, Bool.false_or, hsplit.2] at this
        exact absurd this (by decide)
      · exact ih hsplit.2
    · exact ih hsplit.2

/-- Scanning `"voicenotes/" ++ l` for `"/transcription"`: the fixed prefix has
its only slash right before `l`, so a hit is either `"transcription"` at the
head of `l` or a hit inside `l`. -/
theorem containsSubL_voicenotes_transcription (l : List Char) :
    containsSubL (("voicenotes/").data ++ l) (("/transcription").data) =
      ((("transcription").data.isPrefixOf l) || containsSubL l (("/transcription").data)) :=
  rfl

/-- `"voicenotes/" ++ l` always contains `"voicenotes/"`. -/
theorem containsSubL_voicenotes_self (l : List Char) :
    containsSubL (("voicenotes/").data ++ l) (("voicenotes/").data) = true := by
  have h : ("voicenotes/").data.isPrefixOf (("voicenotes/").data ++ l) = true := by
    simp [List.isPrefixOf_iff_prefix]
  cases hd : ("voicenotes/").data ++ l with
  | nil => simp_all
  | cons c rest => rw [containsSubL, ← hd, h, Bool.true_or]

/-- The plain collection regex at a match starting the string: the capture is
the whole id when it is nonempty and slash-free. -/
theorem capturePlainL_exact (p0 : Char) (pr id : List Char) (hne : id ≠ [])
    (hns : ∀ c ∈ id, c ≠ '/') :
    capturePlainL (p0 :: pr) ((p0 :: pr) ++ id) = some id := by
  have hpre : (p0 :: pr).isPrefixOf ((p0 :: pr) ++ id) = true := by
    simp [List.isPrefixOf_iff_prefix]
  have hdrop : ((p0 :: pr) ++ id).drop (p0 :: pr).length = id := List.drop_left _ _
  have htw : id.takeWhile (fun x => !(x = '/')) = id := by
    rw [List.takeWhile_eq_self_iff]
    intro x hx
    simp [hns x hx]
  have hie : id.isEmpty = false := by
    cases id
    · exact absurd rfl hne
    · rfl
  rw [List.cons_append, capturePlainL, ← List.cons_append, hpre]
  simp only [if_true]
  rw [hdrop, htw]
  simp only [hie, Bool.false_eq_true, if_false]

/-- The transcription regex at a match starting the string: on
`"voicenotes/" ++ id ++ "/transcription"` the capture is exactly the
nonempty, slash-free id. -/
theorem captureTransL_exact (id : List Char) (hne : id ≠ []) (hns : ∀ c ∈ id, c ≠ '/') :
    captureTransL (("voicenotes/").data ++ (id ++ ("/transcription").data)) = some id := by
  have hpre : ("voicenotes/").data.isPrefixOf
      (("voicenotes/").data ++ (id ++ ("/transcription").data)) = true := by
    simp [List.isPrefixOf_iff_prefix]
  have hlen : ("voicenotes/").data.length = 11 := rfl
  have hdrop : (("voicenotes/").data ++ (id ++ ("/transcription").data)).drop 11 =
      id ++ ("/transcription").data := by
    rw [← hlen]
    exact List.drop_left _ _
  have htw : (id ++ ("/transcription").data).takeWhile (fun x => !(x = '/')) = id := by
    have h1 : id.takeWhile (fun x => !(x = '/')) = id := by
      rw [List.takeWhile_eq_self_iff]
      intro x hx
      simp [hns x hx]
    show (id ++ '/' :: ("transcription").data).takeWhile (fun x => !(x = '/')) = id
    rw [List.takeWhile_append, h1]
    simp
  have hdrop2 : (id ++ ("/transcription").data).drop id.length = ("/transcription").data :=
    List.drop_left _ _
  have hie : id.isEmpty = false := by
    cases id
    · exact absurd rfl hne
    · rfl
  have hself : ("/transcription").data.isPrefixOf (("/transcription").data) = true := by
    simp [List.isPrefixOf_iff_prefix]
  rcases hd : ("voicenotes/").data ++ (id ++ ("/transcription").data) with _ | ⟨c, rest⟩
  · exact absurd hd (by simp)
  · rw [captureTransL, ← hd, hpre]
    dsimp only
    rw [hdrop, htw, hdrop2, hie, hself]
    rfl

/-- Path `voicenotes/<id>` with a clean id detects as a voicenote. -/
theorem detectResourceType_voicenote (id : String)
    (hns : ∀ c ∈ id.data, c ≠ '/')
    (hpx : ("transcription").data.isPrefixOf id.data = false) :
    detectResourceType (some ("voicenotes/" ++ id)) = some "voicenote" := by
  have hdata : ("voicenotes/" ++ id).data = ("voicenotes/").data ++ id.data := rfl
  have h1 : containsSubL (("voicenotes/").data ++ id.data) (("/transcription").data) = false := by
    rw [containsSubL_voicenotes_transcription, hpx, Bool.false_or]
    exact containsSubL_noSlash _ _ hns
  have h2 : captureTransL (("voicenotes/").data ++ id.data) = none := captureTransL_none h1
  have h3 : containsSubL (("voicenotes/").data ++ id.data) (("voicenotes/").data) = true :=
    containsSubL_voicenotes_self _
  unfold detectResourceType
  dsimp only
  rw [hdata, h1, h2, h3]
  rfl

/-- Path `voicenotes/<id>` with a clean id extracts `<id>`. -/
theorem extractResourceId_voicenote (id : String) (hne : id.data ≠ [])
    (hns : ∀ c ∈ id.data, c ≠ '/') :
    extractResourceId (some ("voicenotes/" ++ id)) "voicenote" = some id := by
  have hdata : ("voicenotes/" ++ id).data =
      ('v' :: ("oicenotes/").data) ++ id.data := rfl
  unfold extractResourceId
  dsimp only
  rw [if_pos rfl, hdata, capturePlainL_exact 'v' (("oicenotes/").data) id.data hne hns]
  rfl

/-- Path `voicenotes/<id>/transcription` detects as a transcription. -/
theorem detectResourceType_transcription (id : String) :
    detectResourceType (some ("voicenotes/" ++ id ++ "/transcription")) =
      some "transcription" := by
  have hdata : ("voicenotes/" ++ id ++ "/transcription").data =
      ("voicenotes/").data ++ (id.data ++ ("/transcription").data) := by
    show (("voicenotes/").data ++ id.data) ++ ("/transcription").data = _
    exact List.append_assoc _ _ _
  have hself : ("/transcription").data.isPrefixOf (("/transcription").data) = true := by
    simp [List.isPrefixOf_iff_prefix]
  have h1 : containsSubL (("voicenotes/").data ++ (id.data ++ ("/transcription").data))
      (("/transcription").data) = true := by
    rw [containsSubL_voicenotes_transcription]
    have hr : containsSubL (id.data ++ ("/transcription").data) (("/transcription").data) =
        true := by
      rw [containsSubL_iff]
      exact ⟨id.data.length, by rw [List.drop_left]; exact hself⟩
    rw [hr, Bool.or_true]
  unfold detectResourceType
  dsimp only
  rw [hdata, h1]
  rfl

/-- Path `voicenotes/<id>/transcription` extracts the owning voicenote id. -/
theorem extractResourceId_transcription (id : String) (hne : id.data ≠ [])
    (hns : ∀ c ∈ id.data, c ≠ '/') :
    extractResourceId (some ("voicenotes/" ++ id ++ "/transcription")) "transcription" =
      some id := by
  have hdata : ("voicenotes/" ++ id ++ "/transcription").data =
      ("voicenotes/").data ++ (id.data ++ ("/transcription").data) := by
    show (("voicenotes/").data ++ id.data) ++ ("/transcription").data = _
    exact List.append_assoc _ _ _
  unfold extractResourceId
  dsimp only
  rw [if_neg (by decide), if_neg (by decide), if_neg (by decide), if_pos rfl, hdata,
    captureTransL_exact id.data hne hns]
  rfl

/-- A path mentioning none of the four collection names detects as nothing. -/
theorem detectResourceType_unknown (u : String)
    (h1 : containsSubL u.data (("transcription").data) = false)
    (h2 : containsSubL u.data (("voicenotes").data) = false)
    (h3 : containsSubL u.data (("webhooks").data) = false)
    (h4 : containsSubL u.data (("api-keys").data) = false) :
    detectResourceType (some u) = none := by
  have c1 : containsSubL u.data ("/transcription").data = false := by
    cases hcc : containsSubL u.data ("/transcription").data
    · rfl
    · have hx := containsSubL_tail hcc
      rw [h1] at hx
      exact absurd hx (by decide)
  have c2 : captureTransL u.data = none := captureTransL_none c1
  have c3 : containsSubL u.data ("voicenotes/").data = false := by
    cases hcc : containsSubL u.data ("voicenotes/").data
    · rfl
    · have hx := containsSubL_init (n := ("voicenotes").data) (x := ['/']) hcc
      rw [h2] at hx
      exact absurd hx (by decide)
  have c4 : containsSubL u.data ("/voicenotes").data = false := by
    cases hcc : containsSubL u.data ("/voicenotes").data
    · rfl
    · have hx := containsSubL_tail hcc
      rw [h2] at hx
      exact absurd hx (by decide)
  have c5 : containsSubL u.data ("webhooks/").data = false := by
    cases hcc : containsSubL u.data ("webhooks/").data
    · rfl
    · have hx := containsSubL_init (n := ("webhooks").data) (x := ['/']) hcc
      rw [h3] at hx
      exact absurd hx (by decide)
  have c6 : containsSubL u.data ("/webhooks").data = false := by
    cases hcc : containsSubL u.data ("/webhooks").data
    · rfl
    · have hx := containsSubL_tail hcc
      rw [h3] at hx
      exact absurd hx (by decide)
  have c7 : containsSubL u.data ("api-keys/").data = false := by
    cases hcc : containsSubL u.data ("api-keys/").data
    · rfl
    · have hx := containsSubL_init (n := ("api-keys").data) (x := ['/']) hcc
      rw [h4] at hx
      exact absurd hx (by decide)
  have c8 : containsSubL u.data ("/api-keys").data = false := by
    cases hcc : containsSubL u.data ("/api-keys").data
    · rfl
    · have hx := containsSubL_tail hcc
      rw [h4] at hx
      exact absurd hx (by decide)
  unfold detectResourceType
  dsimp only
  rw [c1, c2, c3, c4, c5, c6, c7, c8]
  rfl

/-- C2 counterexample: the 404 path `voicenotes/transcription2024` contains
`voicenotes/<id>` and no transcription sub-route, yet the substring-based
detector sees `/transcription` in it and classifies it as a
`TranscriptionNotFoundError` — with no extractable resource id — instead of
the claimed `VoicenoteNotFoundError` with `resourceId = "transcription2024"`. -/
theorem not_found_classification_C2_counterexample :
    (handleApiError { status := some 404, url := some "voicenotes/transcription2024" }).name =
      "TranscriptionNotFoundError" ∧
    (handleApiError { status := some 404, url := some "voicenotes/transcription2024" }).name ≠
      "VoicenoteNotFoundError" ∧
    ((handleApiError
        { status := some 404, url := some "voicenotes/transcription2024" }).context.bind
      (·.resourceId)) = none := by
  decide

/-- C2 amended: for a 404 response, a path `voicenotes/<id>` whose id segment
is nonempty, slash-free and does not itself begin with `transcription` yields
a `VoicenoteNotFoundError` with `context.resourceId = <id>`; a path
`voicenotes/<id>/transcription` yields a `TranscriptionNotFoundError` whose
`context.resourceId` is the voicenote id; and a path mentioning none of the
known resource collections yields the generic `NotFoundError` (endpoint-only
context, no resource-specific subtype). -/
theorem not_found_classification_C2 :
    (∀ (id amsg : String) (mo code : Option String) (det : Option Details)
        (rah : Option String),
      id.data ≠ [] → (∀ c ∈ id.data, c ≠ '/') →
      ("transcription").data.isPrefixOf id.data = false →
      (handleApiError
        { status := some 404, bodyMessage := mo, bodyCode := code, bodyDetails := det,
          axiosMessage := amsg, url := some ("voicenotes/" ++ id),
          retryAfterHeader := rah }).name = "VoicenoteNotFoundError" ∧
      (handleApiError
        { status := some 404, bodyMessage := mo, bodyCode := code, bodyDetails := det,
          axiosMessage := amsg, url := some ("voicenotes/" ++ id),
          retryAfterHeader := rah }).context =
        some { resourceType := some "voicenote", resourceId := some id, endpoint := none,
               suggestion :=
                 some "Verify the voicenote ID exists and belongs to your account." }) ∧
    (∀ (id amsg : String) (mo code : Option String) (det : Option Details)
        (rah : Option String),
      id.data ≠ [] → (∀ c ∈ id.data, c ≠ '/') →
      (handleApiError
        { status := some 404, bodyMessage := mo, bodyCode := code, bodyDetails := det,
          axiosMessage := amsg, url := some ("voicenotes/" ++ id ++ "/transcription"),
          retryAfterHeader := rah }).name = "TranscriptionNotFoundError" ∧
      (handleApiError
        { status := some 404, bodyMessage := mo, bodyCode := code, bodyDetails := det,
          axiosMessage := amsg, url := some ("voicenotes/" ++ id ++ "/transcription"),
          retryAfterHeader := rah }).context =
        some { resourceType := some "transcription", resourceId := some id, endpoint := none,
               suggestion := some
                 "The voicenote may still be processing. Check voicenote.status before accessing transcription." }) ∧
    (∀ (u amsg : String) (mo code : Option String) (det : Option Details)
        (rah : Option String),
      containsSubL u.data (("transcription").data) = false →
      containsSubL u.data (("voicenotes").data) = false →
      containsSubL u.data (("webhooks").data) = false →
      containsSubL u.data (("api-keys").data) = false →
      (handleApiError
        { status := some 404, bodyMessage := mo, bodyCode := code, bodyDetails := det,
          axiosMessage := amsg, url := some u,
          retryAfterHeader := rah }).name = "NotFoundError" ∧
      (handleApiError
        { status := some 404, bodyMessage := mo, bodyCode := code, bodyDetails := det,
          axiosMessage := amsg, url := some u,
          retryAfterHeader := rah }).context = some { endpoint := some u }) := by
  refine ⟨fun id amsg mo code det rah hne hns hpx => ?_,
    fun id amsg mo code det rah hne hns => ?_,
    fun u amsg mo code det rah h1 h2 h3 h4 => ?_⟩
  · have hd := detectResourceType_voicenote id hns hpx
    have he := extractResourceId_voicenote id hne hns
    unfold handleApiError
    dsimp only
    rw [if_neg (by decide : ¬ ((some 404 : Option Nat) = some 401)),
      if_neg (by decide : ¬ ((some 404 : Option Nat) = some 403)),
      if_neg (by decide : ¬ ((some 404 : Option Nat) = some 400)),
      if_pos (rfl : (some 404 : Option Nat) = some 404), hd]
    dsimp only
    rw [if_neg (by decide : ¬ ((some "voicenote" : Option String) = some "transcription")),
      if_pos (rfl : (some "voicenote" : Option String) = some "voicenote"), he]
    exact ⟨rfl, rfl⟩
  · have hd := detectResourceType_transcription id
    have he := extractResourceId_transcription id hne hns
    unfold handleApiError
    dsimp only
    rw [if_neg (by decide : ¬ ((some 404 : Option Nat) = some 401)),
      if_neg (by decide : ¬ ((some 404 : Option Nat) = some 403)),
      if_neg (by decide : ¬ ((some 404 : Option Nat) = some 400)),
      if_pos (rfl : (some 404 : Option Nat) = some 404), hd]
    dsimp only
    rw [if_pos (rfl : (some "transcription" : Option String) = some "transcription"), he]
    exact ⟨rfl, rfl⟩
  · have hd := detectResourceType_unknown u h1 h2 h3 h4
    unfold handleApiError
    dsimp only
    rw [if_neg (by decide : ¬ ((some 404 : Option Nat) = some 401)),
      if_neg (by decide : ¬ ((some 404 : Option Nat) = some 403)),
      if_neg (by decide : ¬ ((some 404 : Option Nat) = some 400)),
      if_pos (rfl : (some 404 : Option Nat) = some 404), hd]
    dsimp only
    rw [if_neg (by decide : ¬ ((none : Option String) = some "transcription")),
      if_neg (by decide : ¬ ((none : Option String) = some "voicenote")),
      if_neg (by decide : ¬ ((none : Option String) = some "webhook")),
      if_neg (by decide : ¬ ((none : Option String) = some "api_key"))]
    exact ⟨rfl, rfl⟩

/-- C2 witness: the amended classification applied to the concrete paths
`voicenotes/vn_123`, `voicenotes/vn_123/transcription` and
`/unknown/endpoint`. -/
theorem not_found_classification_C2_witness :
    (handleApiError { status := some 404, url := some "voicenotes/vn_123" }).name =
      "VoicenoteNotFoundError" ∧
    (handleApiError
        { status := some 404,
          url := some ("voicenotes/" ++ "vn_123" ++ "/transcription") }).name =
      "TranscriptionNotFoundError" ∧
    (handleApiError { status := some 404, url := some "/unknown/endpoint" }).name =
      "NotFoundError" :=
  ⟨(not_found_classification_C2.1 "vn_123" "" none none none none
      (by decide) (by decide) (by decide)).1,
   (not_found_classification_C2.2.1 "vn_123" "" none none none none
      (by decide) (by decide)).1,
   (not_found_classification_C2.2.2 "/unknown/endpoint" "" none none none none
      (by decide) (by decide) (by decide) (by decide)).1⟩

end VocaFuse
